import Mathlib

/-!
Shallow embedding of the charging-session lifecycle and real-time accounting
engine of the EvLiter server (src/services/chargingSessionService.ts), with
the session document shape from src/models/ChargingSession.ts and request
shapes from src/schemas/chargingSession.ts.

Modelling conventions:
* JavaScript numbers are modelled as rationals (ℚ); `x.toFixed(2)` /
  `parseFloat` round-tripping is modelled as rounding to the nearest
  1/100 (half up), `toFixed(1)` as rounding to the nearest 1/10.
* A JavaScript `Date` is modelled as a pair of its epoch milliseconds
  (`getTime()`) and its ISO string (`toISOString()`); the calendar relation
  between the two is not needed by any property proved here.
* The truthiness idiom `a || b` on numbers (0 is falsy) is `jsOrQ` /
  `jsOrOptQ`; on strings ("" is falsy) it is `jsOrStr`.
* The MongoDB collection is a list of session documents plus an id counter;
  `findOne` is `List.find?` in insertion order and `save` replaces the
  document with the matching id.
* The service throws plain `Error`s; following the spec's error taxonomy the
  embedding tags each throw site with its kind (conflict / notFound /
  validation) and keeps the exact source message string.
-/

namespace EvLiter

/-- JavaScript `a || b` for numbers: `0` is falsy. -/
def jsOrQ (a b : ℚ) : ℚ := if a = 0 then b else a

/-- JavaScript `a || b` where `a` is an optional number field: `undefined` and `0` are falsy. -/
def jsOrOptQ (a : Option ℚ) (b : ℚ) : ℚ :=
  match a with
  | some v => jsOrQ v b
  | none => b

/-- JavaScript `a || b` where `a` is an optional string field: `undefined` and `""` are falsy. -/
def jsOrStr (a : Option String) (b : String) : String :=
  match a with
  | some v => if v = "" then b else v
  | none => b

/-- Model of `parseFloat(x.toFixed(2))`: round to the nearest 1/100, half up. -/
def round2 (q : ℚ) : ℚ := (Int.floor (q * 100 + 1/2) : ℚ) / 100

/-- Model of `parseFloat(x.toFixed(1))`: round to the nearest 1/10, half up. -/
def round1 (q : ℚ) : ℚ := (Int.floor (q * 10 + 1/2) : ℚ) / 10

/-- A JavaScript `Date`: epoch milliseconds plus the ISO-8601 rendering. -/
structure DateT where
  ms : Int
  iso : String
deriving DecidableEq, Repr

/-- Session status enum from src/schemas/chargingSession.ts. -/
inductive SessionStatus
  | active
  | completed
  | cancelled
deriving DecidableEq, Repr

/-- A stored charging-session document (src/models/ChargingSession.ts); fields
not consulted by any lifecycle or statistics computation are omitted. -/
structure SessionDoc where
  id : Nat
  userId : String
  stationId : String
  stationName : String
  connectorId : String
  startTime : DateT
  endTime : Option DateT
  duration : Int
  energyDelivered : ℚ
  totalCost : ℚ
  averagePower : ℚ
  batteryLevel : ℚ
  batteryLevelStart : ℚ
  status : SessionStatus
  stationRating : Option ℚ
  stationPricePerKWh : Option ℚ
  stationPowerOutput : Option ℚ
  stationConnectorTypes : List String
deriving DecidableEq, Repr

/-- The session collection: documents in insertion order plus an id counter. -/
structure Store where
  sessions : List SessionDoc
  nextId : Nat
deriving DecidableEq, Repr

/-- Error kinds of the spec's taxonomy, carrying the exact source message. -/
inductive ServiceError
  | conflict (msg : String)
  | notFound (msg : String)
  | validation (msg : String)
deriving DecidableEq, Repr

/-- Station payload inside a start request (src/schemas/chargingStations.ts);
only the fields the lifecycle engine reads are kept. -/
structure StationData where
  id : String
  name : String
  connectorTypes : List String
  pricePerKWh : ℚ
  powerOutput : ℚ
deriving DecidableEq, Repr

/-- startChargingSessionRequestSchema. -/
structure StartChargingSessionRequest where
  stationId : String
  connectorId : String
  connectorType : Option String
  batteryLevelStart : ℚ
  station : StationData
deriving DecidableEq, Repr

/-- updateActiveSessionRequestSchema; the service guards both fields against
`undefined`, so both are optional here. -/
structure UpdateActiveSessionRequest where
  batteryLevel : Option ℚ
  energyDelivered : Option ℚ
deriving DecidableEq, Repr

/-- endChargingSessionRequestSchema. -/
structure EndChargingSessionRequest where
  sessionId : Nat
  batteryLevelEnd : Option ℚ
  stationRating : Option ℚ
deriving DecidableEq, Repr

/-- monthlyUsageSchema. -/
structure MonthlyUsage where
  month : String
  sessions : Nat
  energyUsed : ℚ
  totalSpent : ℚ
deriving DecidableEq, Repr

/-- userStatsSchema. -/
structure UserStats where
  totalSessions : Nat
  totalEnergyUsed : ℚ
  totalSpent : ℚ
  averageSessionDuration : ℚ
  favoriteStation : Option String
  monthlyUsage : List MonthlyUsage
deriving DecidableEq, Repr

/-- Output record of `calculateRealTimeValues`. -/
structure RealTimeValues where
  energyDelivered : ℚ
  averagePower : ℚ
  totalCost : ℚ
  batteryLevel : ℚ
  duration : Int
deriving DecidableEq, Repr

/-- Default battery capacity parameter of `calculateRealTimeValues` (60 kWh). -/
def assumedCapacityKWh : ℚ := 60

/-- Default charging efficiency parameter (0.9). -/
def defaultEfficiency : ℚ := 9/10

/-- Default price fallback used by `calculateCost` (165 Naira per kWh). -/
def defaultPricePerKWh : ℚ := 165

/-- Elapsed whole minutes between a session's startTime and `now`:
`Math.floor((now.getTime() - session.startTime.getTime()) / (1000 * 60))`. -/
def elapsedMinutes (now : DateT) (session : SessionDoc) : Int :=
  Int.fdiv (now.ms - session.startTime.ms) 60000

/-- Power used by the real-time derivation:
`session.stationPowerOutput || session.averagePower || 0`. -/
def powerOutputKwOf (session : SessionDoc) : ℚ :=
  jsOrOptQ session.stationPowerOutput (jsOrQ session.averagePower 0)

/-- calculateRealTimeValues (src/services/chargingSessionService.ts, lines 91-157). -/
def calculateRealTimeValues (now : DateT) (session : SessionDoc)
    (batteryCapacityKWh : ℚ) (efficiency : ℚ) : RealTimeValues :=
  let durationMinutes : Int := elapsedMinutes now session
  let durationHours : ℚ := (durationMinutes : ℚ) / 60
  let powerOutputKw : ℚ := powerOutputKwOf session
  if powerOutputKw ≤ 0 ∨ durationMinutes ≤ 0 then
    { energyDelivered := jsOrQ session.energyDelivered 0
      averagePower := jsOrQ session.averagePower 0
      totalCost := jsOrQ session.totalCost 0
      batteryLevel := jsOrQ session.batteryLevel session.batteryLevelStart
      duration := durationMinutes }
  else
    let calculatedEnergy : ℚ := powerOutputKw * durationHours * efficiency
    let energyDelivered : ℚ := max calculatedEnergy (jsOrQ session.energyDelivered 0)
    let averagePower : ℚ :=
      if 0 < durationHours then energyDelivered / durationHours else powerOutputKw
    let pricePerKWh : ℚ := jsOrOptQ session.stationPricePerKWh 0
    let totalCost : ℚ := energyDelivered * pricePerKWh
    let batteryIncrease : ℚ := energyDelivered / batteryCapacityKWh * 100
    let calculatedBatteryLevel : ℚ := min 100 (session.batteryLevelStart + batteryIncrease)
    let batteryLevel : ℚ :=
      max calculatedBatteryLevel (jsOrQ session.batteryLevel session.batteryLevelStart)
    { energyDelivered := round2 energyDelivered
      averagePower := round2 averagePower
      totalCost := round2 totalCost
      batteryLevel := round1 batteryLevel
      duration := durationMinutes }

/-- calculateCost (lines 163-183): uses the session's snapshotted price when
present and positive, otherwise the station-directory price with the
`|| 165` default (`directoryPrice` models `station?.pricePerKWh`, `none`
covering both a failed lookup and an absent station). -/
def calculateCost (energyDelivered : ℚ) (sessionPricePerKWh : Option ℚ)
    (directoryPrice : Option ℚ) : ℚ :=
  match sessionPricePerKWh with
  | some p => if 0 < p then energyDelivered * p
              else energyDelivered * jsOrOptQ directoryPrice defaultPricePerKWh
  | none => energyDelivered * jsOrOptQ directoryPrice defaultPricePerKWh

/-- `ChargingSession.findOne({ userId, status: "active" })`. -/
def findActiveSession (userId : String) (st : Store) : Option SessionDoc :=
  st.sessions.find? fun s => decide (s.userId = userId ∧ s.status = SessionStatus.active)

/-- `ChargingSession.findOne({ _id: sessionId, userId, status: "active" })`. -/
def findEndSession (userId : String) (sessionId : Nat) (st : Store) : Option SessionDoc :=
  st.sessions.find? fun s =>
    decide (s.id = sessionId ∧ s.userId = userId ∧ s.status = SessionStatus.active)

/-- `session.save()`: replace the stored document with the same id. -/
def saveSession (doc : SessionDoc) (st : Store) : Store :=
  { sessions := st.sessions.map fun s => if s.id = doc.id then doc else s
    nextId := st.nextId }

/-- startChargingSession (lines 188-258); `now` stands for the wall clock at
the call. -/
def startChargingSession (userId : String) (request : StartChargingSessionRequest)
    (now : DateT) (st : Store) : Except ServiceError (SessionDoc × Store) :=
  match findActiveSession userId st with
  | some _ => .error (.conflict "User already has an active charging session")
  | none =>
    let station := request.station
    if station.id ≠ request.stationId then
      .error (.validation "Station ID mismatch between request and station data")
    else
      let connectorTypeToValidate := jsOrStr request.connectorType request.connectorId
      -- the source interpolates the connector type and the available types into
      -- this message; the constant here stands for that dynamic string
      if connectorTypeToValidate ∉ station.connectorTypes then
        .error (.validation "Connector type is not available at this station")
      else
        let doc : SessionDoc :=
          { id := st.nextId
            userId := userId
            stationId := request.stationId
            stationName := station.name
            connectorId := request.connectorId
            startTime := now
            endTime := none
            duration := 0
            energyDelivered := 0
            totalCost := 0
            averagePower := 0
            batteryLevel := request.batteryLevelStart
            batteryLevelStart := request.batteryLevelStart
            status := SessionStatus.active
            stationRating := none
            stationPricePerKWh := some station.pricePerKWh
            stationPowerOutput := some station.powerOutput
            stationConnectorTypes := station.connectorTypes }
        .ok (doc, { sessions := st.sessions ++ [doc], nextId := st.nextId + 1 })

/-- Body of updateActiveSession once the active session has been found
(lines 368-403). -/
def applyUpdate (request : UpdateActiveSessionRequest) (now : DateT)
    (session : SessionDoc) : SessionDoc :=
  let realTimeValues := calculateRealTimeValues now session assumedCapacityKWh defaultEfficiency
  let newBatteryLevel : ℚ :=
    match request.batteryLevel with
    | some b => max b realTimeValues.batteryLevel
    | none => realTimeValues.batteryLevel
  let newEnergyDelivered : ℚ :=
    match request.energyDelivered with
    | some e => max e realTimeValues.energyDelivered
    | none => realTimeValues.energyDelivered
  { session with
      batteryLevel := newBatteryLevel
      energyDelivered := newEnergyDelivered
      duration := realTimeValues.duration
      averagePower := realTimeValues.averagePower
      totalCost := realTimeValues.totalCost }

/-- updateActiveSession (lines 353-404). -/
def updateActiveSession (userId : String) (request : UpdateActiveSessionRequest)
    (now : DateT) (st : Store) : Except ServiceError (SessionDoc × Store) :=
  match findActiveSession userId st with
  | none => .error (.notFound "No active charging session found")
  | some session =>
    let doc := applyUpdate request now session
    .ok (doc, saveSession doc st)

/-- Body of endChargingSession once the active session has been found
(lines 279-342); `directoryPrice` models the station-directory lookup
inside `calculateCost`. -/
def applyEnd (request : EndChargingSessionRequest) (directoryPrice : Option ℚ)
    (now : DateT) (session : SessionDoc) : SessionDoc :=
  let durationMinutes : Int := elapsedMinutes now session
  let s1 :=
    match request.batteryLevelEnd with
    | some b => { session with batteryLevel := b }
    | none => session
  let s2 :=
    match request.batteryLevelEnd with
    | some b =>
      if s1.energyDelivered = 0 then
        { s1 with energyDelivered := max 0 ((b - s1.batteryLevelStart) / 100 * 60) }
      else s1
    | none => s1
  let s3 :=
    if (0 : Int) < durationMinutes ∧ (0 : ℚ) < s2.energyDelivered then
      { s2 with averagePower := s2.energyDelivered / (durationMinutes : ℚ) * 60 }
    else
      match s2.stationPowerOutput with
      | some p =>
        if p ≠ 0 ∧ 0 < durationMinutes then
          if s2.energyDelivered = 0 then
            { s2 with
                energyDelivered := p * (durationMinutes : ℚ) / 60
                averagePower := p }
          else s2
        else s2
      | none => s2
  let s4 :=
    { s3 with
        totalCost := calculateCost s3.energyDelivered s3.stationPricePerKWh directoryPrice
        endTime := some now
        duration := durationMinutes
        status := SessionStatus.completed }
  match request.stationRating with
  | some r => if r ≠ 0 then { s4 with stationRating := some r } else s4
  | none => s4

/-- endChargingSession (lines 263-348). -/
def endChargingSession (userId : String) (request : EndChargingSessionRequest)
    (directoryPrice : Option ℚ) (now : DateT) (st : Store) :
    Except ServiceError (SessionDoc × Store) :=
  match findEndSession userId request.sessionId st with
  | none => .error (.notFound "Active charging session not found")
  | some session =>
    let doc := applyEnd request directoryPrice now session
    .ok (doc, saveSession doc st)

/-- getActiveSession (lines 448-473): computes real-time values for the
response only; the store is returned untouched because the source never
calls `save` here. -/
def getActiveSession (userId : String) (now : DateT) (st : Store) :
    Option SessionDoc × Store :=
  match findActiveSession userId st with
  | none => (none, st)
  | some session =>
    let realTimeValues :=
      calculateRealTimeValues now session assumedCapacityKWh defaultEfficiency
    (some { session with
        energyDelivered := realTimeValues.energyDelivered
        averagePower := realTimeValues.averagePower
        totalCost := realTimeValues.totalCost
        batteryLevel := realTimeValues.batteryLevel
        duration := realTimeValues.duration }, st)

/-- The `YYYY-MM` key: `s.startTime.toISOString().substring(0, 7)`. The
definition is irreducible so that elaboration never unfolds `String.take`
on symbolic strings; no proof below needs to compute it. -/
@[irreducible] def sessionMonth (s : SessionDoc) : String := s.startTime.iso.take 7

/-- The sessions getUserStats aggregates:
`find({ userId, status: { $in: ["completed", "cancelled"] } })`. -/
def completedSessions (userId : String) (st : Store) : List SessionDoc :=
  st.sessions.filter fun s =>
    decide (s.userId = userId ∧
      (s.status = SessionStatus.completed ∨ s.status = SessionStatus.cancelled))

/-- Per-entry bucket update of the `monthlyUsageMap` accumulation: bump the
entry whose key is the session's month, leave the others alone. -/
def monthlyBump (s : SessionDoc) (e : MonthlyUsage) : MonthlyUsage :=
  if e.month = sessionMonth s then
    { month := e.month
      sessions := e.sessions + 1
      energyUsed := e.energyUsed + jsOrQ s.energyDelivered 0
      totalSpent := e.totalSpent + jsOrQ s.totalCost 0 }
  else e

/-- One step of the `monthlyUsageMap` accumulation (insertion-ordered record). -/
def monthlyUpd (acc : List MonthlyUsage) (s : SessionDoc) : List MonthlyUsage :=
  if acc.any (fun e => decide (e.month = sessionMonth s)) then
    acc.map (monthlyBump s)
  else
    acc ++ [{ month := sessionMonth s
              sessions := 1
              energyUsed := jsOrQ s.energyDelivered 0
              totalSpent := jsOrQ s.totalCost 0 }]

/-- The full `monthlyUsageMap` fold over the sessions in order. -/
def monthlyGroup (l : List SessionDoc) : List MonthlyUsage :=
  l.foldl monthlyUpd []

/-- One step of the `stationCounts` accumulation (insertion-ordered record). -/
def stationCountUpd (acc : List (String × Nat)) (s : SessionDoc) : List (String × Nat) :=
  if acc.any (fun p => decide (p.1 = s.stationId)) then
    acc.map fun p => if p.1 = s.stationId then (p.1, p.2 + 1) else p
  else
    acc ++ [(s.stationId, 1)]

/-- getUserStats (lines 478-549). JavaScript `Array.prototype.sort` is stable,
so both descending sorts are modelled with the stable `List.mergeSort`. -/
def getUserStats (userId : String) (st : Store) : UserStats :=
  let allSessions := completedSessions userId st
  let totalSessions := allSessions.length
  let totalEnergyUsed := allSessions.foldl (fun sum s => sum + jsOrQ s.energyDelivered 0) 0
  let totalSpent := allSessions.foldl (fun sum s => sum + jsOrQ s.totalCost 0) 0
  let totalDuration := allSessions.foldl (fun sum s => sum + jsOrQ (s.duration : ℚ) 0) 0
  let averageSessionDuration : ℚ :=
    if 0 < totalSessions then totalDuration / (totalSessions : ℚ) else 0
  let stationCounts := allSessions.foldl stationCountUpd []
  let sortedStations := stationCounts.mergeSort fun a b => decide (b.2 ≤ a.2)
  let favoriteStation := sortedStations.head?.map Prod.fst
  let monthlyUsage :=
    (((monthlyGroup allSessions).mergeSort fun a b => decide (b.month ≤ a.month)).take 12)
  { totalSessions := totalSessions
    totalEnergyUsed := totalEnergyUsed
    totalSpent := totalSpent
    averageSessionDuration := averageSessionDuration
    favoriteStation := favoriteStation
    monthlyUsage := monthlyUsage }

/-! Helper lemmas about the embedding. -/

theorem jsOrQ_zero (a : ℚ) : jsOrQ a 0 = a := by
  unfold jsOrQ; split <;> simp_all

theorem jsOrQ_of_le (a b : ℚ) (h0 : 0 ≤ b) (h : b ≤ a) : jsOrQ a b = a := by
  unfold jsOrQ
  split
  · next hz => exact le_antisymm h (by rw [hz]; exact h0)
  · rfl

/-- The real-time derivation in its no-op branch returns the stored values. -/
theorem calculateRealTimeValues_noop (now : DateT) (s : SessionDoc) (cap eff : ℚ)
    (h : powerOutputKwOf s ≤ 0 ∨ elapsedMinutes now s ≤ 0) :
    calculateRealTimeValues now s cap eff =
      { energyDelivered := jsOrQ s.energyDelivered 0
        averagePower := jsOrQ s.averagePower 0
        totalCost := jsOrQ s.totalCost 0
        batteryLevel := jsOrQ s.batteryLevel s.batteryLevelStart
        duration := elapsedMinutes now s } := by
  unfold calculateRealTimeValues
  rw [if_pos h]

/-- The real-time derivation in its active branch, written out arithmetically. -/
theorem calculateRealTimeValues_active (now : DateT) (s : SessionDoc) (cap eff : ℚ)
    (hp : 0 < powerOutputKwOf s) (hd : 0 < elapsedMinutes now s) :
    calculateRealTimeValues now s cap eff =
      { energyDelivered :=
          round2 (max (powerOutputKwOf s * ((elapsedMinutes now s : ℚ) / 60) * eff)
            (jsOrQ s.energyDelivered 0))
        averagePower :=
          round2 ((max (powerOutputKwOf s * ((elapsedMinutes now s : ℚ) / 60) * eff)
            (jsOrQ s.energyDelivered 0)) / ((elapsedMinutes now s : ℚ) / 60))
        totalCost :=
          round2 ((max (powerOutputKwOf s * ((elapsedMinutes now s : ℚ) / 60) * eff)
            (jsOrQ s.energyDelivered 0)) * jsOrOptQ s.stationPricePerKWh 0)
        batteryLevel :=
          round1 (max (min 100 (s.batteryLevelStart +
            (max (powerOutputKwOf s * ((elapsedMinutes now s : ℚ) / 60) * eff)
              (jsOrQ s.energyDelivered 0)) / cap * 100))
            (jsOrQ s.batteryLevel s.batteryLevelStart))
        duration := elapsedMinutes now s } := by
  have hdh : (0 : ℚ) < (elapsedMinutes now s : ℚ) / 60 := by
    have : (0 : ℚ) < (elapsedMinutes now s : ℚ) := by exact_mod_cast hd
    positivity
  unfold calculateRealTimeValues
  rw [if_neg (by push_neg; exact ⟨hp, hd⟩)]
  dsimp only
  rw [if_pos hdh]

/-- updateActiveSession unfolded at a found active session. -/
theorem updateActiveSession_found (u : String) (req : UpdateActiveSessionRequest)
    (now : DateT) (st : Store) (s : SessionDoc)
    (hfind : findActiveSession u st = some s) :
    updateActiveSession u req now st =
      .ok (applyUpdate req now s, saveSession (applyUpdate req now s) st) := by
  unfold updateActiveSession
  rw [hfind]

/-- endChargingSession unfolded at a found active session. -/
theorem endChargingSession_found (u : String) (req : EndChargingSessionRequest)
    (dir : Option ℚ) (now : DateT) (st : Store) (s : SessionDoc)
    (hfind : findEndSession u req.sessionId st = some s) :
    endChargingSession u req dir now st =
      .ok (applyEnd req dir now s, saveSession (applyEnd req dir now s) st) := by
  unfold endChargingSession
  rw [hfind]

/-! Concrete fixtures used by the counterexamples and witnesses. -/

/-- An empty collection. -/
def emptyStore : Store := { sessions := [], nextId := 0 }

def date0 : DateT := { ms := 0, iso := "2026-01-01T00:00:00.000Z" }

def date1 : DateT := { ms := 60000, iso := "2026-01-01T00:01:00.000Z" }

def date2 : DateT := { ms := 120000, iso := "2026-01-01T00:02:00.000Z" }

def date30 : DateT := { ms := 1800000, iso := "2026-01-01T00:30:00.000Z" }

def date60 : DateT := { ms := 3600000, iso := "2026-01-01T01:00:00.000Z" }

/-- A 10 kW station charging 100 Naira/kWh with one CCS connector. -/
def ccsStation : StationData :=
  { id := "s1", name := "Station One", connectorTypes := ["CCS"],
    pricePerKWh := 100, powerOutput := 10 }

/-- Projection of a lifecycle result onto the returned session. -/
def resultDoc (r : Except ServiceError (SessionDoc × Store)) : Option SessionDoc :=
  r.toOption.map Prod.fst

/-- Projection of a lifecycle result onto the resulting store (empty on error). -/
def resultStore (r : Except ServiceError (SessionDoc × Store)) : Store :=
  match r with
  | .ok (_, st) => st
  | .error _ => emptyStore

/-- A freshly started session for user "u" at `ccsStation`, 20% initial charge. -/
def updActiveDoc : SessionDoc :=
  { id := 0, userId := "u", stationId := "s1", stationName := "Station One",
    connectorId := "c1", startTime := date0, endTime := none, duration := 0,
    energyDelivered := 0, totalCost := 0, averagePower := 0, batteryLevel := 20,
    batteryLevelStart := 20, status := SessionStatus.active, stationRating := none,
    stationPricePerKWh := some 100, stationPowerOutput := some 10,
    stationConnectorTypes := ["CCS"] }

/-- Store holding just `updActiveDoc`. -/
def updStore : Store := { sessions := [updActiveDoc], nextId := 1 }

/-- A start request matching `updActiveDoc` (20% initial charge at `ccsStation`). -/
def startReq20 : StartChargingSessionRequest :=
  { stationId := "s1", connectorId := "c1", connectorType := some "CCS",
    batteryLevelStart := 20, station := ccsStation }

/-! C4 — a Start while an Active session exists fails with the conflict error. -/

/-- C4: if the user already has a session with status Active, Start fails with
the ConflictError ("User already has an active charging session") and, the
operation returning an error, no session is created; this holds whenever an
Active session for the user is present in the store. -/
theorem c4_start_conflict (u : String) (req : StartChargingSessionRequest)
    (now : DateT) (st : Store)
    (h : ∃ s ∈ st.sessions, s.userId = u ∧ s.status = SessionStatus.active) :
    startChargingSession u req now st =
      .error (.conflict "User already has an active charging session") := by
  obtain ⟨s, hs, hprop⟩ := h
  unfold startChargingSession
  cases hfind : findActiveSession u st with
  | none =>
    exfalso
    unfold findActiveSession at hfind
    rw [List.find?_eq_none] at hfind
    exact hfind s hs (by simpa using hprop)
  | some _ => rfl

/-- Witness for C4 at a concrete store holding an active session. -/
theorem c4_start_conflict_witness :
    startChargingSession "u" startReq20 date1 updStore =
      .error (.conflict "User already has an active charging session") :=
  c4_start_conflict "u" startReq20 date1 updStore
    ⟨updActiveDoc, by simp [updStore], ⟨rfl, rfl⟩⟩

/-! C5 — the derivation round-trip and the no-op branch. -/

/-- A session one hour into charging at 50 kW from 20%, used for the C5 round trip. -/
def fiftyKwDoc : SessionDoc :=
  { id := 7, userId := "u", stationId := "s1", stationName := "Station One",
    connectorId := "c1", startTime := date0, endTime := none, duration := 0,
    energyDelivered := 0, totalCost := 0, averagePower := 0, batteryLevel := 20,
    batteryLevelStart := 20, status := SessionStatus.active, stationRating := none,
    stationPricePerKWh := some 165, stationPowerOutput := some 50,
    stationConnectorTypes := ["CCS"] }

/-- A session whose station power snapshot is 0 and whose averagePower is 0,
so the derivation no-ops; stored values are nonzero to make the no-op visible. -/
def noopDoc : SessionDoc :=
  { id := 8, userId := "u", stationId := "s1", stationName := "Station One",
    connectorId := "c1", startTime := date0, endTime := none, duration := 0,
    energyDelivered := 7, totalCost := 3, averagePower := 0, batteryLevel := 50,
    batteryLevelStart := 10, status := SessionStatus.active, stationRating := none,
    stationPricePerKWh := some 100, stationPowerOutput := some 0,
    stationConnectorTypes := ["CCS"] }

/-- C5: with powerKw=50, one elapsed hour, batteryLevelStart=20 and the default
capacity (60 kWh) and efficiency (0.9), the derived energyDelivered is exactly
45 and the derived batteryLevel exactly 95; and whenever powerKw ≤ 0 or the
elapsed time is zero, the derived energy, power, cost and battery level equal
the stored ones (for any session satisfying the schema bounds
0 ≤ batteryLevelStart ≤ batteryLevel). -/
theorem c5_realtime_derivation :
    ((calculateRealTimeValues date60 fiftyKwDoc assumedCapacityKWh
        defaultEfficiency).energyDelivered = 45 ∧
     (calculateRealTimeValues date60 fiftyKwDoc assumedCapacityKWh
        defaultEfficiency).batteryLevel = 95) ∧
    ∀ (now : DateT) (s : SessionDoc),
      0 ≤ s.batteryLevelStart → s.batteryLevelStart ≤ s.batteryLevel →
      (powerOutputKwOf s ≤ 0 ∨ now.ms - s.startTime.ms = 0) →
      (calculateRealTimeValues now s assumedCapacityKWh
          defaultEfficiency).energyDelivered = s.energyDelivered ∧
      (calculateRealTimeValues now s assumedCapacityKWh
          defaultEfficiency).averagePower = s.averagePower ∧
      (calculateRealTimeValues now s assumedCapacityKWh
          defaultEfficiency).totalCost = s.totalCost ∧
      (calculateRealTimeValues now s assumedCapacityKWh
          defaultEfficiency).batteryLevel = s.batteryLevel := by
  constructor
  · constructor <;>
    · simp [calculateRealTimeValues, elapsedMinutes, powerOutputKwOf, jsOrQ, jsOrOptQ,
        round2, round1, assumedCapacityKWh, defaultEfficiency, fiftyKwDoc, date60, date0]
      norm_num
  · intro now s h0 hsb h
    have hnoop : powerOutputKwOf s ≤ 0 ∨ elapsedMinutes now s ≤ 0 := by
      rcases h with h | h
      · exact Or.inl h
      · refine Or.inr ?_
        unfold elapsedMinutes
        rw [h]
        decide
    rw [calculateRealTimeValues_noop now s assumedCapacityKWh defaultEfficiency hnoop]
    exact ⟨jsOrQ_zero _, jsOrQ_zero _, jsOrQ_zero _, jsOrQ_of_le _ _ h0 hsb⟩

/-- Witness for C5 at a concrete no-op session and the concrete round trip. -/
theorem c5_realtime_derivation_witness :
    (calculateRealTimeValues date1 noopDoc assumedCapacityKWh
        defaultEfficiency).energyDelivered = 7 ∧
    (calculateRealTimeValues date1 noopDoc assumedCapacityKWh
        defaultEfficiency).totalCost = 3 ∧
    (calculateRealTimeValues date60 fiftyKwDoc assumedCapacityKWh
        defaultEfficiency).energyDelivered = 45 :=
  ⟨((c5_realtime_derivation.2 date1 noopDoc (by norm_num [noopDoc]) (by norm_num [noopDoc])
      (Or.inl (by norm_num [noopDoc, powerOutputKwOf, jsOrQ, jsOrOptQ]))).1),
   ((c5_realtime_derivation.2 date1 noopDoc (by norm_num [noopDoc]) (by norm_num [noopDoc])
      (Or.inl (by norm_num [noopDoc, powerOutputKwOf, jsOrQ, jsOrOptQ]))).2.2.1),
   c5_realtime_derivation.1.1⟩

/-! C1 — monotonicity of stored energy and battery level across Updates. -/

/-- Start for user "u": 20% initial charge at the 10 kW station. -/
def monoStep1 : Except ServiceError (SessionDoc × Store) :=
  startChargingSession "u" startReq20 date0 emptyStore

/-- First update, one minute in, with caller-supplied batteryLevel 95.04. -/
def monoStep2 : Except ServiceError (SessionDoc × Store) :=
  updateActiveSession "u" { batteryLevel := some 95.04, energyDelivered := none }
    date1 (resultStore monoStep1)

/-- Second update, two minutes in, with caller-supplied batteryLevel 0. -/
def monoStep3 : Except ServiceError (SessionDoc × Store) :=
  updateActiveSession "u" { batteryLevel := some 0, energyDelivered := none }
    date2 (resultStore monoStep2)

/-- C1: the stored batteryLevel DECREASES across two Updates on the same Active
session (95.04 after the first update, 95.0 after the second), because the
real-time derivation applies its 1-decimal rounding after the
max-reconciliation; this contradicts the claimed monotonicity (and the
source's own comments "ensures values never decrease"). -/
theorem c1_battery_level_decreases :
    (resultDoc monoStep2).map SessionDoc.batteryLevel = some (95.04 : ℚ) ∧
    (resultDoc monoStep3).map SessionDoc.batteryLevel = some (95 : ℚ) ∧
    (95 : ℚ) < (95.04 : ℚ) := by
  refine ⟨?_, ?_, by norm_num⟩ <;>
  · simp [monoStep3, monoStep2, monoStep1, resultStore, resultDoc, startChargingSession,
      updateActiveSession, findActiveSession, applyUpdate, calculateRealTimeValues,
      elapsedMinutes, powerOutputKwOf, jsOrQ, jsOrOptQ, jsOrStr, round2, round1,
      assumedCapacityKWh, defaultEfficiency, saveSession, startReq20, ccsStation,
      emptyStore, date0, date1, date2, Except.toOption]
    norm_num

/-! C2 — batteryLevel ≥ batteryLevelStart versus the authoritative end value. -/

/-- An active session for user "x" that started at 50% charge. -/
def endActiveDoc : SessionDoc :=
  { id := 0, userId := "x", stationId := "s1", stationName := "Station One",
    connectorId := "c1", startTime := date0, endTime := none, duration := 0,
    energyDelivered := 0, totalCost := 0, averagePower := 0, batteryLevel := 50,
    batteryLevelStart := 50, status := SessionStatus.active, stationRating := none,
    stationPricePerKWh := some 100, stationPowerOutput := some 10,
    stationConnectorTypes := ["CCS"] }

def endStore : Store := { sessions := [endActiveDoc], nextId := 1 }

/-- End request reporting a final battery level of 10%, below the 50% start. -/
def endReqLow : EndChargingSessionRequest :=
  { sessionId := 0, batteryLevelEnd := some 10, stationRating := none }

def endLowResult : Except ServiceError (SessionDoc × Store) :=
  endChargingSession "x" endReqLow none date30 endStore

/-- C2 counterexample: ending the session with batteryLevelEnd = 10 stores
batteryLevel 10 while batteryLevelStart is 50, so the claimed invariant
batteryLevel ≥ batteryLevelStart fails after an End with a supplied end value. -/
theorem c2_counterexample :
    (resultDoc endLowResult).map SessionDoc.batteryLevel = some (10 : ℚ) ∧
    (resultDoc endLowResult).map SessionDoc.batteryLevelStart = some (50 : ℚ) ∧
    ¬ ((50 : ℚ) ≤ 10) := by
  refine ⟨?_, ?_, by norm_num⟩ <;>
  · simp [endLowResult, endChargingSession, findEndSession, applyEnd, calculateCost,
      elapsedMinutes, jsOrQ, jsOrOptQ, defaultPricePerKWh, saveSession, endReqLow,
      endStore, endActiveDoc, resultDoc, date0, date30, Except.toOption]
    norm_num

/-- Battery level column of applyEnd when the request carries an end value. -/
theorem applyEnd_batteryLevel (req : EndChargingSessionRequest) (dir : Option ℚ)
    (now : DateT) (s : SessionDoc) (b : ℚ) (hb : req.batteryLevelEnd = some b) :
    (applyEnd req dir now s).batteryLevel = b := by
  unfold applyEnd
  simp only [hb]
  repeat' split
  all_goals rfl

/-- C2 (amended): after Start the stored batteryLevel equals batteryLevelStart,
and an End carrying batteryLevelEnd stores exactly that value (authoritative,
no max-reconciliation), so batteryLevel ≥ batteryLevelStart survives an End
only when the supplied end value is at least the start value. -/
theorem c2_end_battery_authoritative
    (u : String) (req : EndChargingSessionRequest) (dir : Option ℚ) (now : DateT)
    (st : Store) (s : SessionDoc) (b : ℚ) (doc : SessionDoc) (st2 : Store)
    (hfind : findEndSession u req.sessionId st = some s)
    (hb : req.batteryLevelEnd = some b)
    (hok : endChargingSession u req dir now st = .ok (doc, st2)) :
    doc.batteryLevel = b ∧
    ∀ (u2 : String) (sreq : StartChargingSessionRequest) (n2 : DateT) (st3 : Store)
      (d2 : SessionDoc) (st4 : Store),
      startChargingSession u2 sreq n2 st3 = .ok (d2, st4) →
      d2.batteryLevel = d2.batteryLevelStart := by
  rw [endChargingSession_found u req dir now st s hfind] at hok
  simp only [Except.ok.injEq, Prod.mk.injEq] at hok
  obtain ⟨hdoc, _⟩ := hok
  subst hdoc
  refine ⟨applyEnd_batteryLevel req dir now s b hb, ?_⟩
  intro u2 sreq n2 st3 d2 st4 hstart
  unfold startChargingSession at hstart
  split at hstart
  · cases hstart
  · dsimp only at hstart
    split at hstart
    · cases hstart
    · split at hstart
      · cases hstart
      · simp only [Except.ok.injEq, Prod.mk.injEq] at hstart
        obtain ⟨hd2, _⟩ := hstart
        subst hd2
        rfl

/-- The session stored by `endLowResult`. -/
def endLowFinalDoc : SessionDoc :=
  { id := 0, userId := "x", stationId := "s1", stationName := "Station One",
    connectorId := "c1", startTime := date0, endTime := some date30, duration := 30,
    energyDelivered := 5, totalCost := 500, averagePower := 10, batteryLevel := 10,
    batteryLevelStart := 50, status := SessionStatus.completed, stationRating := none,
    stationPricePerKWh := some 100, stationPowerOutput := some 10,
    stationConnectorTypes := ["CCS"] }

/-- Witness for C2 (amended) at the concrete low-end-value scenario. -/
theorem c2_end_battery_authoritative_witness :
    endLowFinalDoc.batteryLevel = 10 := by
  have hok : endChargingSession "x" endReqLow none date30 endStore =
      .ok (endLowFinalDoc, { sessions := [endLowFinalDoc], nextId := 1 }) := by
    simp [endChargingSession, findEndSession, applyEnd, calculateCost, elapsedMinutes,
      jsOrQ, jsOrOptQ, defaultPricePerKWh, saveSession, endReqLow, endStore, endActiveDoc,
      endLowFinalDoc, date0, date30]
    norm_num
  exact (c2_end_battery_authoritative "x" endReqLow none date30 endStore endActiveDoc 10
    endLowFinalDoc { sessions := [endLowFinalDoc], nextId := 1 } rfl rfl hok).1

/-! C3 — totalCost and averagePower after an Update. -/

/-- Update request supplying an energyDelivered far above the time-derived one. -/
def updReqHigh : UpdateActiveSessionRequest :=
  { batteryLevel := some 20, energyDelivered := some 1000 }

def updHighResult : Except ServiceError (SessionDoc × Store) :=
  updateActiveSession "u" updReqHigh date1 updStore

/-- C3 counterexample: the Update stores energyDelivered = 1000 (the caller's
value wins the max-reconciliation) but stores totalCost = 15, the cost of the
time-derived energy, with the snapshotted price 100 — so the stored session
violates totalCost = energyDelivered × price. -/
theorem c3_counterexample :
    (resultDoc updHighResult).map SessionDoc.energyDelivered = some (1000 : ℚ) ∧
    (resultDoc updHighResult).map SessionDoc.totalCost = some (15 : ℚ) ∧
    (resultDoc updHighResult).map SessionDoc.stationPricePerKWh = some (some (100 : ℚ)) ∧
    (15 : ℚ) ≠ 1000 * 100 := by
  refine ⟨?_, ?_, ?_, by norm_num⟩ <;>
  · simp [updHighResult, updateActiveSession, findActiveSession, applyUpdate,
      calculateRealTimeValues, elapsedMinutes, powerOutputKwOf, jsOrQ, jsOrOptQ,
      round2, round1, assumedCapacityKWh, defaultEfficiency, saveSession, updReqHigh,
      updStore, updActiveDoc, resultDoc, date0, date1, Except.toOption]
    try norm_num

/-- C3 (amended): after a successful Update in the derivation-active case, the
stored totalCost is round2(E × snapshotted price) and the stored averagePower
is round2(E / elapsed hours), where E is the time-derived energy
max(power × hours × efficiency, previously stored energy) — NOT the
caller-reconciled energyDelivered that is stored alongside them. -/
theorem c3_update_cost_from_time_derived
    (u : String) (req : UpdateActiveSessionRequest) (now : DateT) (st : Store)
    (s doc : SessionDoc) (st2 : Store)
    (hfind : findActiveSession u st = some s)
    (hok : updateActiveSession u req now st = .ok (doc, st2))
    (hp : 0 < powerOutputKwOf s) (hd : 0 < elapsedMinutes now s) :
    doc.totalCost =
      round2 ((max (powerOutputKwOf s * ((elapsedMinutes now s : ℚ) / 60) * defaultEfficiency)
        (jsOrQ s.energyDelivered 0)) * jsOrOptQ s.stationPricePerKWh 0) ∧
    doc.averagePower =
      round2 ((max (powerOutputKwOf s * ((elapsedMinutes now s : ℚ) / 60) * defaultEfficiency)
        (jsOrQ s.energyDelivered 0)) / ((elapsedMinutes now s : ℚ) / 60)) := by
  rw [updateActiveSession_found u req now st s hfind] at hok
  simp only [Except.ok.injEq, Prod.mk.injEq] at hok
  obtain ⟨hdoc, _⟩ := hok
  subst hdoc
  have h := calculateRealTimeValues_active now s assumedCapacityKWh defaultEfficiency hp hd
  constructor
  · show (calculateRealTimeValues now s assumedCapacityKWh defaultEfficiency).totalCost = _
    rw [h]
  · show (calculateRealTimeValues now s assumedCapacityKWh defaultEfficiency).averagePower = _
    rw [h]

/-- The session stored by `updHighResult`. -/
def updHighFinalDoc : SessionDoc :=
  { id := 0, userId := "u", stationId := "s1", stationName := "Station One",
    connectorId := "c1", startTime := date0, endTime := none, duration := 1,
    energyDelivered := 1000, totalCost := 15, averagePower := 9, batteryLevel := 203/10,
    batteryLevelStart := 20, status := SessionStatus.active, stationRating := none,
    stationPricePerKWh := some 100, stationPowerOutput := some 10,
    stationConnectorTypes := ["CCS"] }

/-- Witness for C3 (amended) at the concrete caller-override scenario. -/
theorem c3_update_cost_from_time_derived_witness :
    updHighFinalDoc.totalCost = 15 ∧ updHighFinalDoc.averagePower = 9 := by
  have hok : updateActiveSession "u" updReqHigh date1 updStore =
      .ok (updHighFinalDoc, { sessions := [updHighFinalDoc], nextId := 1 }) := by
    simp [updateActiveSession, findActiveSession, applyUpdate, calculateRealTimeValues,
      elapsedMinutes, powerOutputKwOf, jsOrQ, jsOrOptQ, round2, round1,
      assumedCapacityKWh, defaultEfficiency, saveSession, updReqHigh, updStore,
      updActiveDoc, updHighFinalDoc, date0, date1]
    norm_num
  have h := c3_update_cost_from_time_derived "u" updReqHigh date1 updStore updActiveDoc
    updHighFinalDoc { sessions := [updHighFinalDoc], nextId := 1 } rfl hok
    (by norm_num [powerOutputKwOf, jsOrOptQ, jsOrQ, updActiveDoc])
    (by decide)
  refine ⟨h.1.trans ?_, h.2.trans ?_⟩ <;>
  · simp [round2, elapsedMinutes, powerOutputKwOf, jsOrQ, jsOrOptQ, defaultEfficiency,
      updActiveDoc, date0, date1]
    norm_num

/-! C6 — the End-time fallback estimate of energyDelivered. -/

/-- An active session for user "v" with no recorded energy, started at 90%. -/
def fallbackDoc90 : SessionDoc :=
  { id := 0, userId := "v", stationId := "s1", stationName := "Station One",
    connectorId := "c1", startTime := date0, endTime := none, duration := 0,
    energyDelivered := 0, totalCost := 0, averagePower := 0, batteryLevel := 90,
    batteryLevelStart := 90, status := SessionStatus.active, stationRating := none,
    stationPricePerKWh := some 100, stationPowerOutput := some 50,
    stationConnectorTypes := ["CCS"] }

def fbStore : Store := { sessions := [fallbackDoc90], nextId := 1 }

/-- End request reporting a final battery level of 30%, below the 90% start. -/
def endReq30 : EndChargingSessionRequest :=
  { sessionId := 0, batteryLevelEnd := some 30, stationRating := none }

def fbResult : Except ServiceError (SessionDoc × Store) :=
  endChargingSession "v" endReq30 none date30 fbStore

/-- C6 counterexample: with energyDelivered = 0, batteryLevelStart = 90 and
batteryLevelEnd = 30 the claimed floored estimate is 0, but after 30 elapsed
minutes at a 50 kW station the code overwrites the zero estimate with the
rated-power fallback and stores energyDelivered = 25 (and cost 2500). -/
theorem c6_counterexample :
    (resultDoc fbResult).map SessionDoc.energyDelivered = some (25 : ℚ) ∧
    max (0 : ℚ) ((30 - 90) / 100 * 60) = 0 ∧
    (25 : ℚ) ≠ 0 := by
  refine ⟨?_, by norm_num, by norm_num⟩
  simp [fbResult, endChargingSession, findEndSession, applyEnd, calculateCost,
    elapsedMinutes, jsOrQ, jsOrOptQ, defaultPricePerKWh, saveSession, endReq30,
    fbStore, fallbackDoc90, resultDoc, date0, date30, Except.toOption]
  try norm_num

/-- The totalCost column of applyEnd is always calculateCost applied to the
final energy and the session price snapshot. -/
theorem applyEnd_totalCost (req : EndChargingSessionRequest) (dir : Option ℚ)
    (now : DateT) (s : SessionDoc) :
    (applyEnd req dir now s).totalCost =
      calculateCost (applyEnd req dir now s).energyDelivered s.stationPricePerKWh dir := by
  unfold applyEnd
  try dsimp only
  repeat' split
  all_goals rfl

/-- calculateCost with a positive price snapshot. -/
theorem calculateCost_pos (e p : ℚ) (dir : Option ℚ) (hp0 : 0 < p) :
    calculateCost e (some p) dir = e * p := by
  unfold calculateCost
  try dsimp only
  rw [if_pos hp0]

/-- Energy column of applyEnd for a session ending with zero recorded energy
and a supplied batteryLevelEnd. -/
theorem applyEnd_energy_estimate (req : EndChargingSessionRequest) (dir : Option ℚ)
    (now : DateT) (s : SessionDoc) (b : ℚ)
    (he : s.energyDelivered = 0) (hb : req.batteryLevelEnd = some b) :
    (applyEnd req dir now s).energyDelivered =
      (if 0 < max 0 ((b - s.batteryLevelStart) / 100 * 60) then
        max 0 ((b - s.batteryLevelStart) / 100 * 60)
      else
        match s.stationPowerOutput with
        | some pw =>
          if pw ≠ 0 ∧ 0 < elapsedMinutes now s then pw * (elapsedMinutes now s : ℚ) / 60
          else 0
        | none => 0) := by
  unfold applyEnd
  simp only [hb]
  try dsimp only
  rw [if_pos he]
  try dsimp only
  by_cases hest : (0 : ℚ) < max 0 ((b - s.batteryLevelStart) / 100 * 60)
  · have hne : max (0 : ℚ) ((b - s.batteryLevelStart) / 100 * 60) ≠ 0 := hest.ne'
    repeat' split
    all_goals simp_all
  · have hest0 : max (0 : ℚ) ((b - s.batteryLevelStart) / 100 * 60) = 0 :=
      le_antisymm (not_lt.mp hest) (le_max_left 0 _)
    repeat' split
    all_goals simp_all

/-- C6 (amended): at End with zero recorded energy and a supplied
batteryLevelEnd, the stored energyDelivered is the floored estimate
max(0, (end − start)/100 × 60) when that estimate is positive; when the
estimate floors to 0 and the session has a nonzero rated-power snapshot and a
positive elapsed duration, the rated-power fallback stores
power × minutes / 60 instead; totalCost is the final energyDelivered times
the (positive) snapshotted price. -/
theorem c6_end_fallback_estimate
    (u : String) (req : EndChargingSessionRequest) (dir : Option ℚ) (now : DateT)
    (st : Store) (s doc : SessionDoc) (st2 : Store) (b p : ℚ)
    (hfind : findEndSession u req.sessionId st = some s)
    (he : s.energyDelivered = 0) (hb : req.batteryLevelEnd = some b)
    (hp : s.stationPricePerKWh = some p) (hp0 : 0 < p)
    (hok : endChargingSession u req dir now st = .ok (doc, st2)) :
    doc.energyDelivered =
      (if 0 < max 0 ((b - s.batteryLevelStart) / 100 * 60) then
        max 0 ((b - s.batteryLevelStart) / 100 * 60)
      else
        match s.stationPowerOutput with
        | some pw =>
          if pw ≠ 0 ∧ 0 < elapsedMinutes now s then pw * (elapsedMinutes now s : ℚ) / 60
          else 0
        | none => 0) ∧
    doc.totalCost = doc.energyDelivered * p := by
  rw [endChargingSession_found u req dir now st s hfind] at hok
  simp only [Except.ok.injEq, Prod.mk.injEq] at hok
  obtain ⟨hdoc, _⟩ := hok
  subst hdoc
  refine ⟨applyEnd_energy_estimate req dir now s b he hb, ?_⟩
  rw [applyEnd_totalCost req dir now s, hp, calculateCost_pos _ p dir hp0]

/-- An active session for user "w" with no recorded energy, started at 30%,
priced at the 165 default at a 50 kW station. -/
def estDoc30 : SessionDoc :=
  { id := 0, userId := "w", stationId := "s1", stationName := "Station One",
    connectorId := "c1", startTime := date0, endTime := none, duration := 0,
    energyDelivered := 0, totalCost := 0, averagePower := 0, batteryLevel := 30,
    batteryLevelStart := 30, status := SessionStatus.active, stationRating := none,
    stationPricePerKWh := some 165, stationPowerOutput := some 50,
    stationConnectorTypes := ["CCS"] }

def estStore : Store := { sessions := [estDoc30], nextId := 1 }

/-- End request reporting a final battery level of 90%. -/
def endReq90 : EndChargingSessionRequest :=
  { sessionId := 0, batteryLevelEnd := some 90, stationRating := none }

/-- The session stored by ending `estDoc30` with batteryLevelEnd = 90 after 30
minutes: the claimed estimate (90 − 30)/100 × 60 = 36 kWh and cost 5940. -/
def estFinalDoc : SessionDoc :=
  { id := 0, userId := "w", stationId := "s1", stationName := "Station One",
    connectorId := "c1", startTime := date0, endTime := some date30, duration := 30,
    energyDelivered := 36, totalCost := 5940, averagePower := 72, batteryLevel := 90,
    batteryLevelStart := 30, status := SessionStatus.completed, stationRating := none,
    stationPricePerKWh := some 165, stationPowerOutput := some 50,
    stationConnectorTypes := ["CCS"] }

/-- Witness for C6 (amended): the 30% → 90% scenario yields exactly 36 kWh and
totalCost 5940 = 36 × 165. -/
theorem c6_end_fallback_estimate_witness :
    estFinalDoc.energyDelivered = 36 ∧ estFinalDoc.totalCost = 5940 := by
  have hok : endChargingSession "w" endReq90 none date30 estStore =
      .ok (estFinalDoc, { sessions := [estFinalDoc], nextId := 1 }) := by
    simp [endChargingSession, findEndSession, applyEnd, calculateCost, elapsedMinutes,
      jsOrQ, jsOrOptQ, defaultPricePerKWh, saveSession, endReq90, estStore, estDoc30,
      estFinalDoc, date0, date30]
    try norm_num
  have h := c6_end_fallback_estimate "w" endReq90 none date30 estStore estDoc30
    estFinalDoc { sessions := [estFinalDoc], nextId := 1 } 90 165 rfl rfl rfl rfl
    (by norm_num) hok
  have h1 : estFinalDoc.energyDelivered = 36 := by
    rw [h.1]
    norm_num [estDoc30, elapsedMinutes, date0, date30]
  refine ⟨h1, ?_⟩
  rw [h.2, h1]
  norm_num

/-! C10 — rounding of the derived values. -/

/-- Update request supplying an energy value that is not a multiple of 1/100. -/
def quantReq : UpdateActiveSessionRequest :=
  { batteryLevel := some 20, energyDelivered := some 10.005 }

def quantResult : Except ServiceError (SessionDoc × Store) :=
  updateActiveSession "u" quantReq date1 updStore

/-- C10 counterexample: an Update whose caller-supplied energyDelivered =
10.005 wins the max-reconciliation stores exactly 10.005, which is not fixed
by 2-decimal rounding — so stored values are not always quantized. -/
theorem c10_counterexample :
    (resultDoc quantResult).map SessionDoc.energyDelivered = some (10.005 : ℚ) ∧
    round2 (10.005 : ℚ) ≠ (10.005 : ℚ) := by
  constructor
  · simp [quantResult, updateActiveSession, findActiveSession, applyUpdate,
      calculateRealTimeValues, elapsedMinutes, powerOutputKwOf, jsOrQ, jsOrOptQ,
      round2, round1, assumedCapacityKWh, defaultEfficiency, saveSession, quantReq,
      updStore, updActiveDoc, resultDoc, date0, date1, Except.toOption]
    try norm_num
  · norm_num [round2]

/-- C10 (amended): whenever the real-time derivation is active (positive power
and at least one elapsed minute), its energy, averagePower and totalCost
outputs are integer multiples of 1/100 and its batteryLevel an integer
multiple of 1/10 (2- and 1-decimal rounding); the duration is the elapsed
time floored to whole minutes; an Update stores the rounded averagePower,
totalCost and duration as computed, and stores energyDelivered and
batteryLevel as the max of the caller-supplied value with the rounded derived
value (so the stored value is quantized only when the derived value wins);
GetActive returns the rounded derived energy and battery level. -/
theorem c10_derived_values_quantized
    (u : String) (req : UpdateActiveSessionRequest) (now : DateT) (st : Store)
    (s doc : SessionDoc) (st2 : Store)
    (hfind : findActiveSession u st = some s)
    (hok : updateActiveSession u req now st = .ok (doc, st2))
    (hp : 0 < powerOutputKwOf s) (hd : 0 < elapsedMinutes now s) :
    (∃ k : ℤ, (calculateRealTimeValues now s assumedCapacityKWh
      defaultEfficiency).energyDelivered = (k : ℚ) / 100) ∧
    (∃ k : ℤ, (calculateRealTimeValues now s assumedCapacityKWh
      defaultEfficiency).averagePower = (k : ℚ) / 100) ∧
    (∃ k : ℤ, (calculateRealTimeValues now s assumedCapacityKWh
      defaultEfficiency).totalCost = (k : ℚ) / 100) ∧
    (∃ k : ℤ, (calculateRealTimeValues now s assumedCapacityKWh
      defaultEfficiency).batteryLevel = (k : ℚ) / 10) ∧
    elapsedMinutes now s * 60000 ≤ now.ms - s.startTime.ms ∧
    now.ms - s.startTime.ms < elapsedMinutes now s * 60000 + 60000 ∧
    doc.duration = elapsedMinutes now s ∧
    doc.averagePower = (calculateRealTimeValues now s assumedCapacityKWh
      defaultEfficiency).averagePower ∧
    doc.totalCost = (calculateRealTimeValues now s assumedCapacityKWh
      defaultEfficiency).totalCost ∧
    doc.energyDelivered = (match req.energyDelivered with
      | some e => max e (calculateRealTimeValues now s assumedCapacityKWh
          defaultEfficiency).energyDelivered
      | none => (calculateRealTimeValues now s assumedCapacityKWh
          defaultEfficiency).energyDelivered) ∧
    doc.batteryLevel = (match req.batteryLevel with
      | some bl => max bl (calculateRealTimeValues now s assumedCapacityKWh
          defaultEfficiency).batteryLevel
      | none => (calculateRealTimeValues now s assumedCapacityKWh
          defaultEfficiency).batteryLevel) ∧
    (getActiveSession u now st).1.map SessionDoc.energyDelivered =
      some (calculateRealTimeValues now s assumedCapacityKWh
        defaultEfficiency).energyDelivered ∧
    (getActiveSession u now st).1.map SessionDoc.batteryLevel =
      some (calculateRealTimeValues now s assumedCapacityKWh
        defaultEfficiency).batteryLevel := by
  rw [updateActiveSession_found u req now st s hfind] at hok
  simp only [Except.ok.injEq, Prod.mk.injEq] at hok
  obtain ⟨hdoc, _⟩ := hok
  subst hdoc
  have h := calculateRealTimeValues_active now s assumedCapacityKWh defaultEfficiency hp hd
  refine ⟨?_, ?_, ?_, ?_, ?_, ?_, ?_, rfl, rfl, rfl, rfl, ?_, ?_⟩
  · rw [h]; exact ⟨_, rfl⟩
  · rw [h]; exact ⟨_, rfl⟩
  · rw [h]; exact ⟨_, rfl⟩
  · rw [h]; exact ⟨_, rfl⟩
  · unfold elapsedMinutes
    rw [Int.fdiv_eq_ediv _ (by norm_num)]
    omega
  · unfold elapsedMinutes
    rw [Int.fdiv_eq_ediv _ (by norm_num)]
    omega
  · show (calculateRealTimeValues now s assumedCapacityKWh defaultEfficiency).duration =
      elapsedMinutes now s
    rw [h]
  · simp [getActiveSession, hfind]
  · simp [getActiveSession, hfind]

/-- Witness for C10 (amended) at the concrete caller-override scenario. -/
theorem c10_derived_values_quantized_witness :
    updHighFinalDoc.duration = 1 ∧
    (∃ k : ℤ, (calculateRealTimeValues date1 updActiveDoc assumedCapacityKWh
      defaultEfficiency).energyDelivered = (k : ℚ) / 100) := by
  have hok : updateActiveSession "u" updReqHigh date1 updStore =
      .ok (updHighFinalDoc, { sessions := [updHighFinalDoc], nextId := 1 }) := by
    simp [updateActiveSession, findActiveSession, applyUpdate, calculateRealTimeValues,
      elapsedMinutes, powerOutputKwOf, jsOrQ, jsOrOptQ, round2, round1,
      assumedCapacityKWh, defaultEfficiency, saveSession, updReqHigh, updStore,
      updActiveDoc, updHighFinalDoc, date0, date1]
    norm_num
  have h := c10_derived_values_quantized "u" updReqHigh date1 updStore updActiveDoc
    updHighFinalDoc { sessions := [updHighFinalDoc], nextId := 1 } rfl hok
    (by norm_num [powerOutputKwOf, jsOrOptQ, jsOrQ, updActiveDoc])
    (by decide)
  have hdur : updHighFinalDoc.duration = elapsedMinutes date1 updActiveDoc :=
    h.2.2.2.2.2.2.1
  exact ⟨hdur.trans (by decide), h.1⟩

/-! C8 — GetActive is a non-mutating read. -/

/-- C8: GetActive never changes the store (the source has no save call on this
path), two calls at the same instant return the same response, the response is
none exactly when no Active session exists for the user, and the returned
session carries the freshly recomputed real-time values of the stored Active
session. -/
theorem c8_get_active_non_mutating (u : String) (now : DateT) (st : Store) :
    (getActiveSession u now st).2 = st ∧
    (getActiveSession u now (getActiveSession u now st).2).1 =
      (getActiveSession u now st).1 ∧
    ((∀ s ∈ st.sessions, ¬(s.userId = u ∧ s.status = SessionStatus.active)) →
      (getActiveSession u now st).1 = none) ∧
    (∀ s, findActiveSession u st = some s →
      ∃ r, (getActiveSession u now st).1 = some r ∧
        r.id = s.id ∧ r.status = s.status ∧ r.startTime = s.startTime ∧
        r.energyDelivered = (calculateRealTimeValues now s assumedCapacityKWh
          defaultEfficiency).energyDelivered ∧
        r.averagePower = (calculateRealTimeValues now s assumedCapacityKWh
          defaultEfficiency).averagePower ∧
        r.totalCost = (calculateRealTimeValues now s assumedCapacityKWh
          defaultEfficiency).totalCost ∧
        r.batteryLevel = (calculateRealTimeValues now s assumedCapacityKWh
          defaultEfficiency).batteryLevel ∧
        r.duration = (calculateRealTimeValues now s assumedCapacityKWh
          defaultEfficiency).duration) := by
  have hframe : (getActiveSession u now st).2 = st := by
    unfold getActiveSession
    cases hf : findActiveSession u st <;> rfl
  refine ⟨hframe, by rw [hframe], ?_, ?_⟩
  · intro hnone
    have hf : findActiveSession u st = none := by
      unfold findActiveSession
      rw [List.find?_eq_none]
      intro x hx
      simpa using hnone x hx
    simp [getActiveSession, hf]
  · intro s hfs
    refine ⟨{ s with
        energyDelivered := (calculateRealTimeValues now s assumedCapacityKWh
          defaultEfficiency).energyDelivered
        averagePower := (calculateRealTimeValues now s assumedCapacityKWh
          defaultEfficiency).averagePower
        totalCost := (calculateRealTimeValues now s assumedCapacityKWh
          defaultEfficiency).totalCost
        batteryLevel := (calculateRealTimeValues now s assumedCapacityKWh
          defaultEfficiency).batteryLevel
        duration := (calculateRealTimeValues now s assumedCapacityKWh
          defaultEfficiency).duration }, ?_, rfl, rfl, rfl, rfl, rfl, rfl, rfl, rfl⟩
    simp [getActiveSession, hfs]

/-- Witness for C8 at the empty store. -/
theorem c8_get_active_non_mutating_witness :
    (getActiveSession "u" date0 emptyStore).1 = none ∧
    (getActiveSession "u" date0 emptyStore).2 = emptyStore :=
  ⟨(c8_get_active_non_mutating "u" date0 emptyStore).2.2.1
      (by intro s hs; cases hs),
   (c8_get_active_non_mutating "u" date0 emptyStore).1⟩

/-! C9 — End is terminal. -/

/-- Status column of applyEnd: always Completed. -/
theorem applyEnd_status (req : EndChargingSessionRequest) (dir : Option ℚ)
    (now : DateT) (s : SessionDoc) :
    (applyEnd req dir now s).status = SessionStatus.completed := by
  unfold applyEnd
  try dsimp only
  repeat' split
  all_goals rfl

/-- Id column of applyEnd: unchanged. -/
theorem applyEnd_id (req : EndChargingSessionRequest) (dir : Option ℚ)
    (now : DateT) (s : SessionDoc) :
    (applyEnd req dir now s).id = s.id := by
  unfold applyEnd
  try dsimp only
  repeat' split
  all_goals rfl

/-- C9: once End succeeds (and the ended session was the user's only Active
one, as the one-active-session invariant guarantees), the stored session is
Completed, any later Update for the user fails with the NotFoundError, and any
later End for the same sessionId fails with the NotFoundError; the failing
operations return errors, so the terminal record is never mutated again. -/
theorem c9_end_terminality
    (u : String) (req : EndChargingSessionRequest) (dir : Option ℚ) (now : DateT)
    (st : Store) (doc : SessionDoc) (st2 : Store)
    (hok : endChargingSession u req dir now st = .ok (doc, st2))
    (huniq : ∀ s ∈ st.sessions, s.userId = u → s.status = SessionStatus.active →
      s.id = req.sessionId) :
    doc.status = SessionStatus.completed ∧
    (∀ (ureq : UpdateActiveSessionRequest) (now2 : DateT),
      updateActiveSession u ureq now2 st2 =
        .error (.notFound "No active charging session found")) ∧
    (∀ (req2 : EndChargingSessionRequest) (dir2 : Option ℚ) (now3 : DateT),
      req2.sessionId = req.sessionId →
      endChargingSession u req2 dir2 now3 st2 =
        .error (.notFound "Active charging session not found")) := by
  cases hfind : findEndSession u req.sessionId st with
  | none =>
    unfold endChargingSession at hok
    rw [hfind] at hok
    cases hok
  | some s =>
    rw [endChargingSession_found u req dir now st s hfind] at hok
    simp only [Except.ok.injEq, Prod.mk.injEq] at hok
    obtain ⟨hdoc, hst2⟩ := hok
    subst hdoc
    subst hst2
    have hsid : s.id = req.sessionId := by
      have := List.find?_some hfind
      simp only [decide_eq_true_eq] at this
      exact this.1
    have hdocid : (applyEnd req dir now s).id = req.sessionId :=
      (applyEnd_id req dir now s).trans hsid
    refine ⟨applyEnd_status req dir now s, ?_, ?_⟩
    · intro ureq now2
      have hnone : findActiveSession u (saveSession (applyEnd req dir now s) st) = none := by
        unfold findActiveSession saveSession
        rw [List.find?_eq_none]
        intro x hx
        simp only [List.mem_map] at hx
        obtain ⟨y, hy, hxy⟩ := hx
        by_cases hid : y.id = (applyEnd req dir now s).id
        · rw [if_pos hid] at hxy
          subst hxy
          simp [applyEnd_status req dir now s]
        · rw [if_neg hid] at hxy
          subst hxy
          simp only [decide_eq_true_eq, not_and]
          intro hyu hya
          exact absurd ((huniq y hy hyu hya).trans hdocid.symm) hid
      unfold updateActiveSession
      rw [hnone]
    · intro req2 dir2 now3 hreq2
      have hnone : findEndSession u req2.sessionId
          (saveSession (applyEnd req dir now s) st) = none := by
        unfold findEndSession saveSession
        rw [List.find?_eq_none]
        intro x hx
        simp only [List.mem_map] at hx
        obtain ⟨y, hy, hxy⟩ := hx
        by_cases hid : y.id = (applyEnd req dir now s).id
        · rw [if_pos hid] at hxy
          subst hxy
          simp [applyEnd_status req dir now s]
        · rw [if_neg hid] at hxy
          subst hxy
          simp only [decide_eq_true_eq, not_and]
          intro hyid hyu hya
          exact absurd (hyid.trans (hreq2.trans hdocid.symm)) hid
      unfold endChargingSession
      rw [hnone]

/-- Witness for C9 at the concrete ended session of `endLowResult`. -/
theorem c9_end_terminality_witness :
    updateActiveSession "x" { batteryLevel := some 99, energyDelivered := none }
      date60 { sessions := [endLowFinalDoc], nextId := 1 } =
      .error (.notFound "No active charging session found") := by
  have hok : endChargingSession "x" endReqLow none date30 endStore =
      .ok (endLowFinalDoc, { sessions := [endLowFinalDoc], nextId := 1 }) := by
    simp [endChargingSession, findEndSession, applyEnd, calculateCost, elapsedMinutes,
      jsOrQ, jsOrOptQ, defaultPricePerKWh, saveSession, endReqLow, endStore, endActiveDoc,
      endLowFinalDoc, date0, date30]
    norm_num
  exact (c9_end_terminality "x" endReqLow none date30 endStore endLowFinalDoc
    { sessions := [endLowFinalDoc], nextId := 1 } hok
    (by intro s hs hsu hsa
        simp only [endStore, List.mem_singleton] at hs
        subst hs
        rfl)).2.1
    { batteryLevel := some 99, energyDelivered := none } date60

/-! C7 — the statistics aggregation. -/

/-- The sessions of `l` whose startTime falls in month `m`. -/
def monthFilter (l : List SessionDoc) (m : String) : List SessionDoc :=
  l.filter fun s => decide (sessionMonth s = m)

/-- Correctness of one monthly bucket with respect to the session list `l`. -/
def monthEntrySpec (l : List SessionDoc) (e : MonthlyUsage) : Prop :=
  e.sessions = (monthFilter l e.month).length ∧
  e.energyUsed = ((monthFilter l e.month).map SessionDoc.energyDelivered).sum ∧
  e.totalSpent = ((monthFilter l e.month).map SessionDoc.totalCost).sum

theorem monthFilter_append_same (p : List SessionDoc) (x : SessionDoc) (m : String)
    (hm : sessionMonth x = m) :
    monthFilter (p ++ [x]) m = monthFilter p m ++ [x] := by
  unfold monthFilter
  rw [List.filter_append]
  simp [hm]

theorem monthFilter_append_other (p : List SessionDoc) (x : SessionDoc) (m : String)
    (hm : ¬ sessionMonth x = m) :
    monthFilter (p ++ [x]) m = monthFilter p m := by
  unfold monthFilter
  rw [List.filter_append]
  simp [hm]

theorem monthlyBump_month (x : SessionDoc) (e : MonthlyUsage) :
    (monthlyBump x e).month = e.month := by
  unfold monthlyBump
  split <;> rfl

/-- One fold step preserves the bucket invariants, moving the processed prefix
from `p` to `p ++ [x]`. -/
theorem monthlyUpd_step (p : List SessionDoc) (acc : List MonthlyUsage) (x : SessionDoc)
    (h1 : ∀ e ∈ acc, monthEntrySpec p e)
    (h2 : ∀ e ∈ acc, ∃ s ∈ p, sessionMonth s = e.month)
    (h3 : ∀ s ∈ p, ∃ e ∈ acc, e.month = sessionMonth s)
    (h4 : (acc.map MonthlyUsage.month).Nodup) :
    (∀ e ∈ monthlyUpd acc x, monthEntrySpec (p ++ [x]) e) ∧
    (∀ e ∈ monthlyUpd acc x, ∃ s ∈ p ++ [x], sessionMonth s = e.month) ∧
    (∀ s ∈ p ++ [x], ∃ e ∈ monthlyUpd acc x, e.month = sessionMonth s) ∧
    ((monthlyUpd acc x).map MonthlyUsage.month).Nodup := by
  by_cases hany : acc.any (fun e => decide (e.month = sessionMonth x)) = true
  · obtain ⟨e0, he0, he0m⟩ := List.any_eq_true.mp hany
    rw [decide_eq_true_eq] at he0m
    have hupd : monthlyUpd acc x = acc.map (monthlyBump x) := by
      unfold monthlyUpd
      rw [if_pos hany]
    rw [hupd]
    refine ⟨?_, ?_, ?_, ?_⟩
    · intro e' he'
      obtain ⟨e, he, rfl⟩ := List.mem_map.mp he'
      obtain ⟨hl, hen, hco⟩ := h1 e he
      unfold monthlyBump
      by_cases hm : e.month = sessionMonth x
      · rw [if_pos hm]
        have hsame := monthFilter_append_same p x e.month hm.symm
        refine ⟨?_, ?_, ?_⟩
        · show e.sessions + 1 = _
          rw [hsame, List.length_append, hl]
          rfl
        · show e.energyUsed + jsOrQ x.energyDelivered 0 = _
          rw [hsame, List.map_append, List.sum_append, hen, jsOrQ_zero]
          simp
        · show e.totalSpent + jsOrQ x.totalCost 0 = _
          rw [hsame, List.map_append, List.sum_append, hco, jsOrQ_zero]
          simp
      · rw [if_neg hm]
        have hother := monthFilter_append_other p x e.month (fun h => hm h.symm)
        exact ⟨by rw [hother]; exact hl, by rw [hother]; exact hen, by rw [hother]; exact hco⟩
    · intro e' he'
      obtain ⟨e, he, rfl⟩ := List.mem_map.mp he'
      obtain ⟨s, hs, hsm⟩ := h2 e he
      exact ⟨s, List.mem_append_left _ hs, by rw [monthlyBump_month]; exact hsm⟩
    · intro s' hs'
      rcases List.mem_append.mp hs' with hs' | hs'
      · obtain ⟨e, he, hem⟩ := h3 s' hs'
        exact ⟨monthlyBump x e, List.mem_map_of_mem _ he, by rw [monthlyBump_month]; exact hem⟩
      · rw [List.mem_singleton] at hs'
        exact ⟨monthlyBump x e0, List.mem_map_of_mem _ he0,
          by rw [monthlyBump_month, hs']; exact he0m⟩
    · have hmm : List.map MonthlyUsage.month (List.map (monthlyBump x) acc) =
          List.map MonthlyUsage.month acc := by
        rw [List.map_map]
        exact List.map_congr_left (fun e _ => monthlyBump_month x e)
      rw [hmm]
      exact h4
  · have hnone : ∀ e ∈ acc, ¬ e.month = sessionMonth x := by
      intro e he heq
      exact hany (List.any_eq_true.mpr ⟨e, he, by simpa using heq⟩)
    have hupd : monthlyUpd acc x = acc ++
        [{ month := sessionMonth x, sessions := 1,
           energyUsed := jsOrQ x.energyDelivered 0,
           totalSpent := jsOrQ x.totalCost 0 }] := by
      unfold monthlyUpd
      rw [if_neg hany]
    have hnotp : ∀ s' ∈ p, ¬ sessionMonth s' = sessionMonth x := by
      intro s' hs' heq
      obtain ⟨e, he, hem⟩ := h3 s' hs'
      exact hnone e he (hem.trans heq)
    have hfilp : monthFilter p (sessionMonth x) = [] := by
      unfold monthFilter
      rw [List.filter_eq_nil_iff]
      intro a ha
      simpa using hnotp a ha
    rw [hupd]
    refine ⟨?_, ?_, ?_, ?_⟩
    · intro e' he'
      rcases List.mem_append.mp he' with he' | he'
      · have hother := monthFilter_append_other p x e'.month (fun h => hnone e' he' h.symm)
        obtain ⟨hl, hen, hco⟩ := h1 e' he'
        exact ⟨by rw [hother]; exact hl, by rw [hother]; exact hen, by rw [hother]; exact hco⟩
      · rw [List.mem_singleton] at he'
        subst he'
        have hsame := monthFilter_append_same p x (sessionMonth x) rfl
        refine ⟨?_, ?_, ?_⟩
        · show 1 = _
          rw [hsame, hfilp]
          rfl
        · show jsOrQ x.energyDelivered 0 = _
          rw [hsame, hfilp, jsOrQ_zero]
          simp
        · show jsOrQ x.totalCost 0 = _
          rw [hsame, hfilp, jsOrQ_zero]
          simp
    · intro e' he'
      rcases List.mem_append.mp he' with he' | he'
      · obtain ⟨s, hs, hsm⟩ := h2 e' he'
        exact ⟨s, List.mem_append_left _ hs, hsm⟩
      · rw [List.mem_singleton] at he'
        subst he'
        refine ⟨x, List.mem_append_right _ (List.mem_singleton.mpr rfl), ?_⟩
        dsimp only
    · intro s' hs'
      rcases List.mem_append.mp hs' with hs' | hs'
      · obtain ⟨e, he, hem⟩ := h3 s' hs'
        exact ⟨e, List.mem_append_left _ he, hem⟩
      · rw [List.mem_singleton] at hs'
        subst hs'
        refine ⟨_, List.mem_append_right _ (List.mem_singleton.mpr rfl), ?_⟩
        dsimp only
    · rw [List.map_append]
      dsimp only [List.map_cons, List.map_nil]
      rw [List.nodup_append]
      refine ⟨h4, by simp, ?_⟩
      intro a ha hb
      rw [List.mem_singleton] at hb
      subst hb
      obtain ⟨e, he, hem⟩ := List.mem_map.mp ha
      exact hnone e he hem

/-- The bucket invariants hold after folding a whole session list. -/
theorem monthlyFold_spec (l : List SessionDoc) :
    ∀ (p : List SessionDoc) (acc : List MonthlyUsage),
      (∀ e ∈ acc, monthEntrySpec p e) →
      (∀ e ∈ acc, ∃ s ∈ p, sessionMonth s = e.month) →
      (∀ s ∈ p, ∃ e ∈ acc, e.month = sessionMonth s) →
      ((acc.map MonthlyUsage.month).Nodup) →
      (∀ e ∈ l.foldl monthlyUpd acc, monthEntrySpec (p ++ l) e) ∧
      (∀ e ∈ l.foldl monthlyUpd acc, ∃ s ∈ p ++ l, sessionMonth s = e.month) ∧
      (∀ s ∈ p ++ l, ∃ e ∈ l.foldl monthlyUpd acc, e.month = sessionMonth s) ∧
      (((l.foldl monthlyUpd acc).map MonthlyUsage.month).Nodup) := by
  induction l with
  | nil =>
    intro p acc h1 h2 h3 h4
    simpa using ⟨h1, h2, h3, h4⟩
  | cons x xs ih =>
    intro p acc h1 h2 h3 h4
    obtain ⟨g1, g2, g3, g4⟩ := monthlyUpd_step p acc x h1 h2 h3 h4
    have hx := ih (p ++ [x]) (monthlyUpd acc x) g1 g2 g3 g4
    simpa [List.append_assoc] using hx

/-- The grouped buckets are correct, keyed by months that occur, with no
duplicate keys, and cover every session's month. -/
theorem monthlyGroup_spec (l : List SessionDoc) :
    (∀ e ∈ monthlyGroup l, monthEntrySpec l e ∧ ∃ s ∈ l, sessionMonth s = e.month) ∧
    (∀ s ∈ l, ∃ e ∈ monthlyGroup l, e.month = sessionMonth s) ∧
    ((monthlyGroup l).map MonthlyUsage.month).Nodup := by
  have h := monthlyFold_spec l [] []
    (by intro e he; cases he) (by intro e he; cases he)
    (by intro s hs; cases hs) (by simp)
  unfold monthlyGroup
  simp only [List.nil_append] at h
  exact ⟨fun e he => ⟨h.1 e he, h.2.1 e he⟩, h.2.2.1, h.2.2.2⟩

/-- Summation folds with the `|| 0` guard compute plain sums. -/
theorem foldl_add_jsOrQ (f : SessionDoc → ℚ) :
    ∀ (l : List SessionDoc) (a : ℚ),
      l.foldl (fun sum s => sum + jsOrQ (f s) 0) a = a + (l.map f).sum := by
  intro l
  induction l with
  | nil => intro a; simp
  | cons x xs ih =>
    intro a
    rw [List.foldl_cons, ih, List.map_cons, List.sum_cons, jsOrQ_zero, add_assoc]

/-- The descending month comparator is transitive. -/
theorem monthLe_trans (a b c : MonthlyUsage)
    (hab : decide (b.month ≤ a.month) = true)
    (hbc : decide (c.month ≤ b.month) = true) :
    decide (c.month ≤ a.month) = true := by
  rw [decide_eq_true_eq] at *
  exact le_trans hbc hab

/-- The descending month comparator is total. -/
theorem monthLe_total (a b : MonthlyUsage) :
    (decide (b.month ≤ a.month) || decide (a.month ≤ b.month)) = true := by
  simp only [Bool.or_eq_true, decide_eq_true_eq]
  exact le_total b.month a.month

/-- C7: the statistics Compute aggregates exactly the user's Completed and
Cancelled sessions (Active ones excluded): totalSessions is their count,
totalEnergyUsed and totalSpent their energy and cost sums,
averageSessionDuration their mean duration (0 when there are none); the
monthly breakdown has at most 12 buckets, is sorted descending by the
month string, has pairwise-distinct months, each bucket correctly sums the
sessions of its YYYY-MM month of startTime, every bucket month occurs in
some aggregated session; and an empty session set yields the all-zero
statistics with no favoriteStation. -/
theorem c7_statistics_aggregation (u : String) (st : Store) :
    (getUserStats u st).totalSessions = (completedSessions u st).length ∧
    (getUserStats u st).totalEnergyUsed =
      ((completedSessions u st).map SessionDoc.energyDelivered).sum ∧
    (getUserStats u st).totalSpent =
      ((completedSessions u st).map SessionDoc.totalCost).sum ∧
    (getUserStats u st).averageSessionDuration =
      (if (completedSessions u st).length = 0 then 0
       else ((completedSessions u st).map (fun s => (s.duration : ℚ))).sum /
         ((completedSessions u st).length : ℚ)) ∧
    (∀ s ∈ completedSessions u st, s.userId = u ∧ s.status ≠ SessionStatus.active) ∧
    (∀ s ∈ st.sessions, s.userId = u →
      (s.status = SessionStatus.completed ∨ s.status = SessionStatus.cancelled) →
      s ∈ completedSessions u st) ∧
    (getUserStats u st).monthlyUsage.length ≤ 12 ∧
    List.Sorted (fun a b => b.month ≤ a.month) (getUserStats u st).monthlyUsage ∧
    ((getUserStats u st).monthlyUsage.map MonthlyUsage.month).Nodup ∧
    (∀ e ∈ (getUserStats u st).monthlyUsage,
      monthEntrySpec (completedSessions u st) e ∧
      ∃ s ∈ completedSessions u st, sessionMonth s = e.month) ∧
    (completedSessions u st = [] →
      getUserStats u st =
        { totalSessions := 0, totalEnergyUsed := 0, totalSpent := 0,
          averageSessionDuration := 0, favoriteStation := none, monthlyUsage := [] }) := by
  have hmu : (getUserStats u st).monthlyUsage =
      ((monthlyGroup (completedSessions u st)).mergeSort
        (fun a b => decide (b.month ≤ a.month))).take 12 := rfl
  have hperm := List.mergeSort_perm (monthlyGroup (completedSessions u st))
    (fun a b => decide (b.month ≤ a.month))
  obtain ⟨hgA, hgC, hgD⟩ := monthlyGroup_spec (completedSessions u st)
  refine ⟨rfl, ?_, ?_, ?_, ?_, ?_, ?_, ?_, ?_, ?_, ?_⟩
  · show (completedSessions u st).foldl (fun sum s => sum + jsOrQ s.energyDelivered 0) 0 = _
    rw [foldl_add_jsOrQ SessionDoc.energyDelivered, zero_add]
  · show (completedSessions u st).foldl (fun sum s => sum + jsOrQ s.totalCost 0) 0 = _
    rw [foldl_add_jsOrQ SessionDoc.totalCost, zero_add]
  · show (if 0 < (completedSessions u st).length then
        (completedSessions u st).foldl (fun sum s => sum + jsOrQ (s.duration : ℚ) 0) 0 /
          ((completedSessions u st).length : ℚ)
      else 0) = _
    rcases Nat.eq_zero_or_pos (completedSessions u st).length with h | h
    · rw [if_neg (by omega), if_pos h]
    · rw [if_pos h, if_neg (by omega),
        foldl_add_jsOrQ (fun s => (s.duration : ℚ)), zero_add]
  · intro s hs
    unfold completedSessions at hs
    rw [List.mem_filter, decide_eq_true_eq] at hs
    refine ⟨hs.2.1, ?_⟩
    rcases hs.2.2 with h | h <;> · rw [h]; intro hc; cases hc
  · intro s hs hu hst
    unfold completedSessions
    rw [List.mem_filter, decide_eq_true_eq]
    exact ⟨hs, hu, hst⟩
  · rw [hmu]
    exact List.length_take_le _ _
  · rw [hmu]
    have hsorted := @List.sorted_mergeSort MonthlyUsage
      (fun a b => decide (b.month ≤ a.month)) monthLe_trans monthLe_total
      (monthlyGroup (completedSessions u st))
    have hsorted2 : List.Sorted (fun a b : MonthlyUsage => b.month ≤ a.month)
        ((monthlyGroup (completedSessions u st)).mergeSort
          (fun a b => decide (b.month ≤ a.month))) :=
      hsorted.imp (fun h => of_decide_eq_true h)
    exact hsorted2.sublist (List.take_sublist _ _)
  · rw [hmu, List.map_take]
    refine List.Nodup.sublist (List.take_sublist _ _) ?_
    exact ((hperm.map MonthlyUsage.month).nodup_iff).mpr hgD
  · intro e he
    rw [hmu] at he
    have he2 := List.mem_of_mem_take he
    rw [List.mem_mergeSort] at he2
    exact hgA e he2
  · intro h
    simp [getUserStats, h, monthlyGroup]

/-- Witness for C7 at the empty store: all-zero statistics, no favorite. -/
theorem c7_statistics_aggregation_witness :
    getUserStats "nobody" emptyStore =
      { totalSessions := 0, totalEnergyUsed := 0, totalSpent := 0,
        averageSessionDuration := 0, favoriteStation := none, monthlyUsage := [] } :=
  (c7_statistics_aggregation "nobody" emptyStore).2.2.2.2.2.2.2.2.2.2 rfl

end EvLiter
